import Mathlib

/-!
Verification of the `keyon` status-bar shim header (`src/statusbar.h`).

The repository fragment contains a single C header declaring the external
interface of a macOS status-bar/menu-bar integration shim.  We embed the
declaration surface of that header as explicit Lean data (a small AST of C
types and function declarations, transcribed from the source), and where a
claim concerns behaviour whose implementation is not part of the excerpt
(the hotkey accessors, the first of the two header versions mentioned by the
spec) we model that part from the spec, marked as such in the doc comment.
-/

namespace Keyon

/-- A C type, restricted to the forms appearing in `statusbar.h`:
`void`, `bool` (from `stdbool.h`), `uint16_t`, `uint64_t` (from `stdint.h`),
pointer types, and function-pointer types. -/
inductive CType where
  | void : CType
  | boolT : CType
  | uint16 : CType
  | uint64 : CType
  | ptr : CType → CType
  | funPtr : List CType → CType → CType

/-- A named formal parameter of a C function declaration. -/
structure CParam where
  name : String
  type : CType

/-- A C function declaration: name, return type, parameter list.
A C prototype `f(void)` is an empty parameter list. -/
structure CDecl where
  name : String
  ret : CType
  params : List CParam

/-- The eight function declarations of `src/statusbar.h`, transcribed in
source order:

  void setupStatusBar(void (*onQuit)(void));
  void removeStatusBar(void);
  void hideFromDock(void);
  uint16_t getCurrentHotkeyKeycode(void);
  uint64_t getCurrentHotkeyModifiers(void);
  void setWindowAboveAll(void);
  void processCocoaEvents(void);
  void setWindowIgnoresMouseEvents(void *nsWindow, bool ignores);
-/
def statusbarDecls : List CDecl :=
  [ ⟨"setupStatusBar", CType.void, [⟨"onQuit", CType.funPtr [] CType.void⟩]⟩,
    ⟨"removeStatusBar", CType.void, []⟩,
    ⟨"hideFromDock", CType.void, []⟩,
    ⟨"getCurrentHotkeyKeycode", CType.uint16, []⟩,
    ⟨"getCurrentHotkeyModifiers", CType.uint64, []⟩,
    ⟨"setWindowAboveAll", CType.void, []⟩,
    ⟨"processCocoaEvents", CType.void, []⟩,
    ⟨"setWindowIgnoresMouseEvents", CType.void,
      [⟨"nsWindow", CType.ptr CType.void⟩, ⟨"ignores", CType.boolT⟩]⟩ ]

/-- Modelled from the spec: the first of the two near-duplicate header
versions, whose text is not under `src/`.  Per the spec the two versions
"differ only by the addition of hotkey-query functions and removal of none",
so the first version is the `src/statusbar.h` declaration list without
`getCurrentHotkeyKeycode` and `getCurrentHotkeyModifiers`. -/
def statusbarDeclsV1 : List CDecl :=
  [ ⟨"setupStatusBar", CType.void, [⟨"onQuit", CType.funPtr [] CType.void⟩]⟩,
    ⟨"removeStatusBar", CType.void, []⟩,
    ⟨"hideFromDock", CType.void, []⟩,
    ⟨"setWindowAboveAll", CType.void, []⟩,
    ⟨"processCocoaEvents", CType.void, []⟩,
    ⟨"setWindowIgnoresMouseEvents", CType.void,
      [⟨"nsWindow", CType.ptr CType.void⟩, ⟨"ignores", CType.boolT⟩]⟩ ]

/-- Modelled from the spec: the ambient state the shim's declarations act on.
No implementation is under `src/`; the spec says the two accessors "read
current global hotkey binding (16-bit key code, 64-bit modifier flags)", so
the state holds the registered hotkey binding, together with the other
ambient UI state the remaining operations touch (status-bar icon presence,
Dock visibility). -/
structure ShimState where
  hotkeyKeycode : Nat
  hotkeyModifiers : Nat
  statusBarInstalled : Bool
  dockHidden : Bool

/-- Modelled from the spec: `getCurrentHotkeyKeycode` reads the currently
registered global hotkey key code, returned as a `uint16_t` value. -/
def getCurrentHotkeyKeycode (s : ShimState) : Nat :=
  s.hotkeyKeycode % 2 ^ 16

/-- Modelled from the spec: `getCurrentHotkeyModifiers` reads the currently
registered global hotkey modifier mask, returned as a `uint64_t` value. -/
def getCurrentHotkeyModifiers (s : ShimState) : Nat :=
  s.hotkeyModifiers % 2 ^ 64

/-- `true` exactly on the two hotkey accessor declarations. -/
def isHotkeyAccessor (d : CDecl) : Bool :=
  d.name == "getCurrentHotkeyKeycode" || d.name == "getCurrentHotkeyModifiers"

/-- A candidate out-parameter type: a pointer to a scalar object type through
which a callee could write back an error code or result.  `void *` is an
opaque handle, not an out-parameter. -/
def isOutParamType : CType → Bool
  | CType.ptr CType.boolT => true
  | CType.ptr CType.uint16 => true
  | CType.ptr CType.uint64 => true
  | _ => false

/-- One textual inclusion of `statusbar.h` into a translation unit whose
preprocessor state is (is `STATUSBAR_H` defined?, declarations accumulated so
far): if the guard macro is already defined the `#ifndef` skips the whole
file body, otherwise the body defines the macro and contributes the
declaration list. -/
def includeStatusbarOnce : Bool × List CDecl → Bool × List CDecl :=
  fun st => if st.1 then st else (true, st.2 ++ statusbarDecls)

/-- The preprocessor state after including `statusbar.h` `n` times into an
initially empty translation unit. -/
def includeStatusbarN : Nat → Bool × List CDecl
  | 0 => (false, [])
  | n + 1 => includeStatusbarOnce (includeStatusbarN n)

theorem includeStatusbarN_succ (n : Nat) :
    includeStatusbarN (n + 1) = (true, statusbarDecls) := by
  induction n with
  | zero => rfl
  | succ m ih =>
      show includeStatusbarOnce (includeStatusbarN (m + 1)) = _
      rw [ih]
      rfl

/-- Claim C1: the external interface consists of exactly the eight functions
setupStatusBar, removeStatusBar, hideFromDock, getCurrentHotkeyKeycode,
getCurrentHotkeyModifiers, setWindowAboveAll, processCocoaEvents and
setWindowIgnoresMouseEvents: the header declares these and nothing else. -/
theorem interface_exactly_eight :
    statusbarDecls.map CDecl.name =
      [ "setupStatusBar", "removeStatusBar", "hideFromDock",
        "getCurrentHotkeyKeycode", "getCurrentHotkeyModifiers",
        "setWindowAboveAll", "processCocoaEvents",
        "setWindowIgnoresMouseEvents" ] := by
  rfl

/-- Claim C2: the second header version is the first with the two
hotkey-query declarations inserted and nothing removed, so every declaration
of the first version is also declared by the second (the second's declaration
set is a superset of the first's). -/
theorem header_v2_superset_of_v1 :
    statusbarDecls =
      statusbarDeclsV1.take 3
        ++ [ ⟨"getCurrentHotkeyKeycode", CType.uint16, []⟩,
             ⟨"getCurrentHotkeyModifiers", CType.uint64, []⟩ ]
        ++ statusbarDeclsV1.drop 3
    ∧ ∀ d ∈ statusbarDeclsV1, d ∈ statusbarDecls := by
  refine ⟨rfl, ?_⟩
  intro d hd
  fin_cases hd <;> simp [statusbarDecls]

/-- Witness for C2 at a concrete declaration of the first header version. -/
theorem header_v2_superset_of_v1_witness :
    (⟨"hideFromDock", CType.void, []⟩ : CDecl) ∈ statusbarDecls :=
  header_v2_superset_of_v1.2 ⟨"hideFromDock", CType.void, []⟩
    (by simp [statusbarDeclsV1])

/-- Claim C3: `getCurrentHotkeyKeycode` is declared to return `uint16_t`, and
its value always lies in the range 0 to 2^16 - 1. -/
theorem keycode_is_uint16 :
    (statusbarDecls.find? (fun d => d.name == "getCurrentHotkeyKeycode")).map
        CDecl.ret = some CType.uint16
    ∧ ∀ s : ShimState, getCurrentHotkeyKeycode s < 2 ^ 16 := by
  refine ⟨rfl, fun s => ?_⟩
  exact Nat.mod_lt _ (by decide)

/-- Claim C4: `getCurrentHotkeyModifiers` is declared to return `uint64_t`,
and its value always lies in the range 0 to 2^64 - 1. -/
theorem modifiers_is_uint64 :
    (statusbarDecls.find? (fun d => d.name == "getCurrentHotkeyModifiers")).map
        CDecl.ret = some CType.uint64
    ∧ ∀ s : ShimState, getCurrentHotkeyModifiers s < 2 ^ 64 := by
  refine ⟨rfl, fun s => ?_⟩
  exact Nat.mod_lt _ (by decide)

/-- Claim C5: every declared function returns `void` except the two hotkey
accessors, which return `uint16_t` and `uint64_t`; and no declaration carries
an error channel: no parameter is a pointer to a scalar through which a
failure code could be written back. -/
theorem void_returns_no_error_channel :
    (∀ d ∈ statusbarDecls, isHotkeyAccessor d = false → d.ret = CType.void)
    ∧ (∀ d ∈ statusbarDecls, isHotkeyAccessor d = true →
        d.ret = CType.uint16 ∨ d.ret = CType.uint64)
    ∧ (∀ d ∈ statusbarDecls, ∀ p ∈ d.params, isOutParamType p.type = false) := by
  refine ⟨?_, ?_, ?_⟩ <;>
    · intro d hd
      fin_cases hd <;> simp [isHotkeyAccessor, isOutParamType]

/-- Witness for C5 at concrete declarations of the header. -/
theorem void_returns_no_error_channel_witness :
    (⟨"removeStatusBar", CType.void, []⟩ : CDecl).ret = CType.void
    ∧ ((⟨"getCurrentHotkeyKeycode", CType.uint16, []⟩ : CDecl).ret =
          CType.uint16
        ∨ (⟨"getCurrentHotkeyKeycode", CType.uint16, []⟩ : CDecl).ret =
          CType.uint64)
    ∧ isOutParamType
        (⟨"nsWindow", CType.ptr CType.void⟩ : CParam).type = false :=
  ⟨void_returns_no_error_channel.1 ⟨"removeStatusBar", CType.void, []⟩
      (by simp [statusbarDecls]) (by simp [isHotkeyAccessor]),
    void_returns_no_error_channel.2.1
      ⟨"getCurrentHotkeyKeycode", CType.uint16, []⟩
      (by simp [statusbarDecls]) (by simp [isHotkeyAccessor]),
    void_returns_no_error_channel.2.2
      ⟨"setWindowIgnoresMouseEvents", CType.void,
        [⟨"nsWindow", CType.ptr CType.void⟩, ⟨"ignores", CType.boolT⟩]⟩
      (by simp [statusbarDecls]) ⟨"nsWindow", CType.ptr CType.void⟩
      (by simp)⟩

/-- Claim C6: `setupStatusBar` takes exactly one argument, `onQuit`, a
pointer to a function taking no arguments and returning `void`, and itself
returns `void`. -/
theorem setupStatusBar_signature :
    statusbarDecls.find? (fun d => d.name == "setupStatusBar") =
      some ⟨"setupStatusBar", CType.void,
        [⟨"onQuit", CType.funPtr [] CType.void⟩]⟩ := by
  rfl

/-- Claim C7: `setWindowIgnoresMouseEvents` takes exactly two arguments, an
opaque native window handle (`void *`) and a boolean toggle (`bool`), and
returns nothing. -/
theorem setWindowIgnoresMouseEvents_signature :
    statusbarDecls.find? (fun d => d.name == "setWindowIgnoresMouseEvents") =
      some ⟨"setWindowIgnoresMouseEvents", CType.void,
        [⟨"nsWindow", CType.ptr CType.void⟩, ⟨"ignores", CType.boolT⟩]⟩ := by
  rfl

/-- Claim C8: inclusion of `statusbar.h` is idempotent: thanks to the
`STATUSBAR_H` include guard, including the header any positive number of
times into a translation unit contributes exactly the same declaration list
as including it once. -/
theorem include_idempotent (n : Nat) (h : 1 ≤ n) :
    (includeStatusbarN n).2 = (includeStatusbarN 1).2 := by
  obtain ⟨m, rfl⟩ := Nat.exists_eq_add_of_le h
  rw [Nat.add_comm, includeStatusbarN_succ]
  rfl

/-- Witness for C8: three inclusions contribute the same declarations as
one. -/
theorem include_idempotent_witness :
    (includeStatusbarN 3).2 = (includeStatusbarN 1).2 :=
  include_idempotent 3 (by decide)

/-- Claim C9: the quit callback channel carries no data in either direction:
the declared type of `onQuit` is a pointer to a function with an empty
parameter list and `void` return. -/
theorem onQuit_carries_no_data :
    (statusbarDecls.find? (fun d => d.name == "setupStatusBar")).map
        (fun d => d.params.map CParam.type) =
      some [CType.funPtr [] CType.void] := by
  rfl

/-- Claim C10: the hotkey accessors are nullary queries: both are declared
with no parameters, and their results depend only on the ambient
hotkey-registration state — two states agreeing on the registered binding
yield identical results regardless of any other ambient state. -/
theorem hotkey_accessors_deterministic :
    ((statusbarDecls.find? (fun d => d.name == "getCurrentHotkeyKeycode")).map
        CDecl.params = some [])
    ∧ ((statusbarDecls.find?
          (fun d => d.name == "getCurrentHotkeyModifiers")).map
        CDecl.params = some [])
    ∧ ∀ s t : ShimState, s.hotkeyKeycode = t.hotkeyKeycode →
        s.hotkeyModifiers = t.hotkeyModifiers →
        getCurrentHotkeyKeycode s = getCurrentHotkeyKeycode t
          ∧ getCurrentHotkeyModifiers s = getCurrentHotkeyModifiers t := by
  refine ⟨rfl, rfl, fun s t hk hm => ?_⟩
  constructor
  · unfold getCurrentHotkeyKeycode
    rw [hk]
  · unfold getCurrentHotkeyModifiers
    rw [hm]

/-- Witness for C10 at two concrete states that agree on the hotkey binding
but differ in all other ambient state. -/
theorem hotkey_accessors_deterministic_witness :
    getCurrentHotkeyKeycode ⟨40, 256, true, false⟩ =
        getCurrentHotkeyKeycode ⟨40, 256, false, true⟩
    ∧ getCurrentHotkeyModifiers ⟨40, 256, true, false⟩ =
        getCurrentHotkeyModifiers ⟨40, 256, false, true⟩ :=
  hotkey_accessors_deterministic.2.2 ⟨40, 256, true, false⟩
    ⟨40, 256, false, true⟩ rfl rfl

end Keyon
